import Mathlib

/-!
Verification development for the checkout-flow test suite:
the CSV step reporter (`utils/csv_reporter.py`), the end-to-end checkout
test orchestration (`tests/test_05_complete_checkout_flow.py`), and the
page-object helpers it relies on (`pages/cart_page.py`,
`pages/checkout_page.py`).

Python exceptions are modelled with the explicit result type `PyResult`;
collaborator (browser/driver) outcomes are supplied by an environment
record `Env`, so that one run of the test is a pure function of `Env`.
Step durations come from wall-clock timers, so they too are environment
data (rationals standing in for Python floats; the claims under study
never depend on float-specific behaviour).
-/

/-- Outcome of a Python call: a normal return or a raised exception
carrying its `str()` message. -/
inductive PyResult (α : Type) : Type
  | ok (val : α)
  | exn (msg : String)
deriving DecidableEq, Repr

/-- Whether the call returned normally. -/
def PyResult.isOk {α : Type} : PyResult α → Bool
  | .ok _ => true
  | .exn _ => false

/-! ## CSVReporter (`utils/csv_reporter.py`) -/

/-- One row of the in-memory report: the dict built by
`CSVReporter.add_step` (with `stepNumber = some n`) or by
`CSVReporter.add_summary` (whose `'Step Number'` entry is the empty
string, modelled as `none`). -/
structure Row where
  stepNumber : Option Int
  stepName : String
  status : String
  duration : Rat
  details : String
  errorMessage : String
deriving DecidableEq, Repr

/-- Python's `round(x, 2)`, on rationals: `⌊100·q + 1/2⌋ / 100`,
written with integer arithmetic on the numerator and denominator.
(Python rounds floats half to even; the tie-breaking mode is irrelevant
to every property proved here.) -/
def round2 (q : Rat) : Rat :=
  Rat.divInt ((200 * q.num + (q.den : Int)).fdiv (2 * (q.den : Int))) 100

/-- The reporter state: the constructor-time report name and the
accumulated `self.steps` list. -/
structure CSVReporter where
  report_name : String
  steps : List Row
deriving DecidableEq, Repr

/-- `CSVReporter.add_step`: builds the step dict (rounding the duration
to two decimals) and appends it to `self.steps`.  The source performs no
check on `step_number`. -/
def CSVReporter.add_step (r : CSVReporter) (step_number : Int)
    (step_name status : String) (duration : Rat)
    (details error_message : String) : CSVReporter :=
  { r with steps := r.steps ++
      [{ stepNumber := some step_number, stepName := step_name,
         status := status, duration := round2 duration,
         details := details, errorMessage := error_message }] }

/-- The summary dict built by `CSVReporter.add_summary`: counts the steps
whose `'Status'` equals `'SUCCESS'`, takes every other step as failed,
and sums the durations.  Its `'Step Number'` entry is the empty string. -/
def summaryRow (r : CSVReporter) : Row :=
  let total_steps := r.steps.length
  let passed_steps := (r.steps.filter (fun s => s.status = "SUCCESS")).length
  let failed_steps := total_steps - passed_steps
  let total_duration := (r.steps.map (fun s => s.duration)).sum
  { stepNumber := none, stepName := "SUMMARY",
    status := if failed_steps = 0 then "PASSED" else "FAILED",
    duration := round2 total_duration,
    details := "Total: " ++ toString total_steps ++ ", Passed: " ++
      toString passed_steps ++ ", Failed: " ++ toString failed_steps,
    errorMessage := "" }

/-- `CSVReporter.add_summary`: appends the summary row to `self.steps`. -/
def CSVReporter.add_summary (r : CSVReporter) : CSVReporter :=
  { r with steps := r.steps ++ [summaryRow r] }

/-- Number of recorded rows whose status is the literal `"FAILED"`. -/
def countFailed (l : List Row) : Nat :=
  (l.filter (fun s => s.status = "FAILED")).length

lemma succ_fail_partition (l : List Row)
    (h : ∀ s ∈ l, s.status = "SUCCESS" ∨ s.status = "FAILED") :
    (l.filter (fun s => s.status = "SUCCESS")).length + countFailed l = l.length := by
  induction l with
  | nil => simp [countFailed]
  | cons a t ih =>
    have ha := h a (by simp)
    have ht : ∀ s ∈ t, s.status = "SUCCESS" ∨ s.status = "FAILED" :=
      fun s hs => h s (by simp [hs])
    have iht := ih ht
    rcases ha with ha | ha <;>
      simp only [countFailed, List.filter_cons, ha] at iht ⊢ <;>
      simp <;> omega

/-- C2: for a finalized report (every recorded step has status SUCCESS
or FAILED), the summary row appended by `add_summary` has status PASSED
iff no recorded step is FAILED, and any FAILED step makes it FAILED. -/
theorem C2_summary_status (r : CSVReporter)
    (h : ∀ s ∈ r.steps, s.status = "SUCCESS" ∨ s.status = "FAILED") :
    ∃ srow, (r.add_summary).steps.getLast? = some srow ∧
      srow.stepName = "SUMMARY" ∧
      (srow.status = "PASSED" ↔ countFailed r.steps = 0) ∧
      (1 ≤ countFailed r.steps → srow.status = "FAILED") := by
  have hpart := succ_fail_partition r.steps h
  refine ⟨summaryRow r, by simp [CSVReporter.add_summary], rfl, ?_, ?_⟩
  · constructor
    · intro hp
      by_contra hne
      have hnz : r.steps.length -
          (r.steps.filter (fun s => s.status = "SUCCESS")).length ≠ 0 := by omega
      simp only [summaryRow, if_neg hnz] at hp
      exact absurd hp (by decide)
    · intro hz
      have hz2 : r.steps.length -
          (r.steps.filter (fun s => s.status = "SUCCESS")).length = 0 := by omega
      simp [summaryRow, hz2]
  · intro hge
    have hnz : r.steps.length -
        (r.steps.filter (fun s => s.status = "SUCCESS")).length ≠ 0 := by omega
    simp [summaryRow, hnz]

/-- Demonstration reporter state used to instantiate `C2_summary_status`:
one SUCCESS step and one FAILED step. -/
def demoReporter : CSVReporter :=
  { report_name := "e2e_checkout_test",
    steps := [{ stepNumber := some 0, stepName := "User Registration",
                status := "SUCCESS", duration := 1, details := "", errorMessage := "" },
              { stepNumber := some 1, stepName := "Logout After Registration",
                status := "FAILED", duration := 1, details := "",
                errorMessage := "Logout failed" }] }

theorem C2_summary_status_witness :
    (∀ s ∈ demoReporter.steps, s.status = "SUCCESS" ∨ s.status = "FAILED") ∧
    (∃ srow, (demoReporter.add_summary).steps.getLast? = some srow ∧
      srow.stepName = "SUMMARY" ∧
      (srow.status = "PASSED" ↔ countFailed demoReporter.steps = 0) ∧
      (1 ≤ countFailed demoReporter.steps → srow.status = "FAILED")) :=
  ⟨by decide, C2_summary_status demoReporter (by decide)⟩

/-- C7: `add_step` appends unconditionally.  For every current state and
every `step_number` — including one that duplicates an index already in
`steps` or is out of order — the new row goes at the end of `steps`, the
length grows by one, and no error value exists in the return type: the
source has no index check and no `DuplicateIndex` signal. -/
theorem C7_add_step_unconditional (r : CSVReporter) (n : Int)
    (name status : String) (dur : Rat) (det err : String) :
    (r.add_step n name status dur det err).steps =
      r.steps ++ [{ stepNumber := some n, stepName := name, status := status,
                    duration := round2 dur, details := det, errorMessage := err }] ∧
    (r.add_step n name status dur det err).steps.length = r.steps.length + 1 := by
  constructor
  · rfl
  · simp [CSVReporter.add_step]

/-! ## CSV serialization (`csv.DictWriter` with the default dialect) and
its parse-back, for the export round-trip property.

`generate_report` writes the header row then one line per entry of
`self.steps`, through Python's `csv` module: fields are separated by
`','`, records end in `"\r\n"`, and a field containing a delimiter,
quote, or line-terminator character is wrapped in double quotes with
embedded quotes doubled (QUOTE_MINIMAL).  The parser below is modelled
from the spec's round-trip sentence, since no parser exists in the
repository; it is a standard CSV reader for that dialect. -/

/-- A field must be quoted iff it contains the delimiter, the quote
character, or a line-terminator character. -/
def needsQuote (f : List Char) : Bool :=
  f.any (fun c => c == ',' || c == '"' || c == '\r' || c == '\n')

/-- Double every quote character in a field body. -/
def escQuotes : List Char → List Char
  | [] => []
  | c :: cs => if c = '"' then '"' :: '"' :: escQuotes cs else c :: escQuotes cs

/-- Serialize one field, quoting when required. -/
def renderField (f : List Char) : List Char :=
  if needsQuote f then '"' :: (escQuotes f ++ ['"']) else f

/-- Serialize one record: fields joined by the delimiter. -/
def renderRecord : List (List Char) → List Char
  | [] => []
  | [f] => renderField f
  | f :: fs => renderField f ++ ',' :: renderRecord fs

/-- Serialize a sequence of records (`writer.writerows` plus the header
write), each terminated by CRLF. -/
def renderCSV : List (List (List Char)) → List Char
  | [] => []
  | r :: rs => renderRecord r ++ '\r' :: '\n' :: renderCSV rs

/-- Modelled from the spec: read a quoted field body (opening quote
already consumed); a doubled quote is an escaped quote, a single quote
closes the field.  Returns the field and the unread remainder. -/
def parseQuoted : List Char → List Char × List Char
  | [] => ([], [])
  | c :: cs =>
    if c = '"' then
      match cs with
      | [] => ([], [])
      | c2 :: cs2 =>
        if c2 = '"' then
          let p := parseQuoted cs2
          ('"' :: p.1, p.2)
        else ([], cs)
    else
      let p := parseQuoted cs
      (c :: p.1, p.2)

/-- Modelled from the spec: read an unquoted field, stopping at a
delimiter or line terminator (left unread). -/
def parseUnquoted : List Char → List Char × List Char
  | [] => ([], [])
  | c :: cs =>
    if c = ',' ∨ c = '\r' ∨ c = '\n' then ([], c :: cs)
    else
      let p := parseUnquoted cs
      (c :: p.1, p.2)

/-- Modelled from the spec: read one field, quoted or not. -/
def parseField (cs : List Char) : List Char × List Char :=
  match cs with
  | [] => ([], [])
  | c :: rest => if c = '"' then parseQuoted rest else parseUnquoted (c :: rest)

/-- Modelled from the spec: read the fields of one record up to and
including its line terminator (fuelled for totality; one unit of fuel
per field suffices). -/
def parseRecordF : Nat → List Char → List (List Char) × List Char
  | 0, cs => ([], cs)
  | fuel + 1, cs =>
    let p := parseField cs
    match p.2 with
    | [] => ([p.1], [])
    | c :: r =>
      if c = ',' then
        let q := parseRecordF fuel r
        (p.1 :: q.1, q.2)
      else if c = '\r' then
        match r with
        | [] => ([p.1], [])
        | c2 :: r2 => if c2 = '\n' then ([p.1], r2) else ([p.1], r)
      else if c = '\n' then ([p.1], r)
      else ([p.1], c :: r)

/-- Modelled from the spec: read all records of the artifact (fuelled;
one unit per record suffices). -/
def parseCSVF : Nat → List Char → List (List (List Char))
  | 0, _ => []
  | _ + 1, [] => []
  | fuel + 1, c :: cs =>
    let p := parseRecordF ((c :: cs).length + 1) (c :: cs)
    p.1 :: parseCSVF fuel p.2

/-- Modelled from the spec: parse a whole CSV artifact. -/
def parseCSV (cs : List Char) : List (List (List Char)) :=
  parseCSVF (cs.length + 1) cs

lemma parseQuoted_cons_ne (c : Char) (cs : List Char) (hc : c ≠ '"') :
    parseQuoted (c :: cs) = (c :: (parseQuoted cs).1, (parseQuoted cs).2) := by
  rw [parseQuoted.eq_def]
  simp [hc]

lemma parseQuoted_quote_quote (cs : List Char) :
    parseQuoted ('"' :: '"' :: cs) = ('"' :: (parseQuoted cs).1, (parseQuoted cs).2) := by
  rw [parseQuoted.eq_def]
  simp

lemma parseQuoted_quote_ne (c2 : Char) (cs : List Char) (h : c2 ≠ '"') :
    parseQuoted ('"' :: c2 :: cs) = ([], c2 :: cs) := by
  rw [parseQuoted.eq_def]
  simp [h]

lemma parseQuoted_esc (f : List Char) (rest : List Char)
    (hrest : rest.head? ≠ some '"') :
    parseQuoted (escQuotes f ++ '"' :: rest) = (f, rest) := by
  induction f with
  | nil =>
    cases rest with
    | nil =>
      rw [parseQuoted.eq_def]
      simp [escQuotes]
    | cons c2 cs2 =>
      have hc2 : c2 ≠ '"' := by
        intro h; apply hrest; simp [h]
      simpa [escQuotes] using parseQuoted_quote_ne c2 cs2 hc2
  | cons c cs ih =>
    by_cases hc : c = '"'
    · subst hc
      simp [escQuotes, parseQuoted_quote_quote, ih]
    · simp [escQuotes, hc, parseQuoted_cons_ne c _ hc, ih]

lemma parseUnquoted_cons (c : Char) (cs : List Char) :
    parseUnquoted (c :: cs) =
      if c = ',' ∨ c = '\r' ∨ c = '\n' then ([], c :: cs)
      else (c :: (parseUnquoted cs).1, (parseUnquoted cs).2) := by
  rw [parseUnquoted.eq_def]

/-- Splits the four boolean conjuncts of `needsQuote` on a head char. -/
lemma needsQuote_cons_false (c : Char) (cs : List Char)
    (h : needsQuote (c :: cs) = false) :
    c ≠ ',' ∧ c ≠ '"' ∧ c ≠ '\r' ∧ c ≠ '\n' ∧ needsQuote cs = false := by
  simp only [needsQuote, List.any_cons, Bool.or_eq_false_iff,
    beq_eq_false_iff_ne, ne_eq] at h
  obtain ⟨⟨⟨⟨h1, h2⟩, h3⟩, h4⟩, h5⟩ := h
  exact ⟨h1, h2, h3, h4, by simpa [needsQuote] using h5⟩

lemma parseUnquoted_clean (f : List Char)
    (hf : needsQuote f = false) (d : Char)
    (hd : d = ',' ∨ d = '\r' ∨ d = '\n') (rest : List Char) :
    parseUnquoted (f ++ d :: rest) = (f, d :: rest) := by
  induction f with
  | nil => simp [parseUnquoted_cons, hd]
  | cons c cs ih =>
    obtain ⟨h1, _, h3, h4, hcs⟩ := needsQuote_cons_false c cs hf
    have hc : ¬(c = ',' ∨ c = '\r' ∨ c = '\n') := by tauto
    simp [parseUnquoted_cons, hc, ih hcs]

lemma parseField_cons (c : Char) (cs : List Char) :
    parseField (c :: cs) =
      if c = '"' then parseQuoted cs else parseUnquoted (c :: cs) := rfl

lemma parseField_render (f : List Char) (d : Char)
    (hd : d = ',' ∨ d = '\r' ∨ d = '\n') (rest : List Char) :
    parseField (renderField f ++ d :: rest) = (f, d :: rest) := by
  have hdq : d ≠ '"' := by rcases hd with h | h | h <;> simp [h]
  by_cases hq : needsQuote f
  · have hne : (d :: rest).head? ≠ some '"' := by simp [hdq]
    simp only [renderField, hq, if_pos, List.cons_append, List.append_assoc,
      List.cons_append, List.nil_append, parseField_cons, if_pos rfl]
    exact parseQuoted_esc f (d :: rest) hne
  · have hq' : needsQuote f = false := by simpa using hq
    rw [renderField, hq']
    simp only [Bool.false_eq_true, if_neg (by simp : ¬False)]
    cases f with
    | nil =>
      simp [parseField_cons, hdq, parseUnquoted_cons, hd]
    | cons c cs =>
      obtain ⟨_, hcq, _, _, _⟩ := needsQuote_cons_false c cs hq'
      rw [List.cons_append, parseField_cons, if_neg hcq]
      exact parseUnquoted_clean (c :: cs) hq' d hd rest

lemma parseRecordF_succ_comma (fuel : Nat) (cs f r : List Char)
    (hp : parseField cs = (f, ',' :: r)) :
    parseRecordF (fuel + 1) cs =
      (f :: (parseRecordF fuel r).1, (parseRecordF fuel r).2) := by
  rw [parseRecordF.eq_def]
  simp [hp]

lemma parseRecordF_succ_crlf (fuel : Nat) (cs f r : List Char)
    (hp : parseField cs = (f, '\r' :: '\n' :: r)) :
    parseRecordF (fuel + 1) cs = ([f], r) := by
  have h1 : ¬(('\r' : Char) = ',') := by decide
  rw [parseRecordF.eq_def]
  simp [hp, h1]

lemma parseRecordF_render (fields : List (List Char)) (hne : fields ≠ []) :
    ∀ fuel, fields.length ≤ fuel → ∀ rest,
      parseRecordF fuel (renderRecord fields ++ '\r' :: '\n' :: rest) =
        (fields, rest) := by
  induction fields with
  | nil => exact absurd rfl hne
  | cons f fs ih =>
    intro fuel hf rest
    match fuel, hf with
    | fuel + 1, hf =>
      cases fs with
      | nil =>
        have hp := parseField_render f '\r' (by simp) ('\n' :: rest)
        rw [show renderRecord [f] = renderField f from rfl]
        exact parseRecordF_succ_crlf fuel _ f rest hp
      | cons f2 fs2 =>
        have hp := parseField_render f ','
          (by simp) (renderRecord (f2 :: fs2) ++ '\r' :: '\n' :: rest)
        rw [show renderRecord (f :: f2 :: fs2) =
          renderField f ++ ',' :: renderRecord (f2 :: fs2) from rfl,
          List.append_assoc]
        rw [parseRecordF_succ_comma fuel _ f _ (by simpa using hp)]
        rw [ih (by simp) fuel (by simpa using Nat.le_of_succ_le_succ hf) rest]

lemma renderRecord_length_ge (fields : List (List Char)) :
    fields.length ≤ (renderRecord fields).length + 1 := by
  induction fields with
  | nil => simp [renderRecord]
  | cons f fs ih =>
    cases fs with
    | nil => simp [renderRecord]
    | cons f2 fs2 =>
      rw [show renderRecord (f :: f2 :: fs2) =
        renderField f ++ ',' :: renderRecord (f2 :: fs2) from rfl]
      simp only [List.length_cons, List.length_append] at ih ⊢
      omega

lemma parseCSVF_render (rows : List (List (List Char)))
    (hrows : ∀ r ∈ rows, r ≠ []) :
    ∀ fuel, rows.length ≤ fuel → parseCSVF fuel (renderCSV rows) = rows := by
  induction rows with
  | nil =>
    intro fuel _
    cases fuel <;> simp [renderCSV, parseCSVF]
  | cons r rs ih =>
    intro fuel hf
    match fuel, hf with
    | fuel + 1, hf =>
      rw [show renderCSV (r :: rs) =
        renderRecord r ++ '\r' :: '\n' :: renderCSV rs from rfl]
      have hrec := parseRecordF_render r (hrows r (by simp))
        ((renderRecord r ++ '\r' :: '\n' :: renderCSV rs).length + 1)
        (by
          have := renderRecord_length_ge r
          simp only [List.length_append, List.length_cons]
          omega)
        (renderCSV rs)
      rcases hL : renderRecord r ++ '\r' :: '\n' :: renderCSV rs with _ | ⟨c, cs⟩
      · exact absurd hL (by cases hR : renderRecord r <;> simp [hR])
      · rw [hL] at hrec
        rw [parseCSVF, hrec]
        simp only [List.cons.injEq, true_and]
        exact ih (fun x hx => hrows x (by simp [hx])) fuel
          (by simpa using Nat.le_of_succ_le_succ hf)

lemma renderCSV_length_ge (rows : List (List (List Char))) :
    rows.length ≤ (renderCSV rows).length := by
  induction rows with
  | nil => simp [renderCSV]
  | cons r rs ih =>
    rw [show renderCSV (r :: rs) =
      renderRecord r ++ '\r' :: '\n' :: renderCSV rs from rfl]
    simp only [List.length_cons, List.length_append, List.length_cons]
    omega

/-- Round trip at char level: parsing a rendered CSV artifact recovers
every record exactly, for records with at least one field (a record with
zero fields is indistinguishable from one holding a single empty field,
and the reporter always writes six fields per record). -/
lemma parseCSV_renderCSV (rows : List (List (List Char)))
    (hrows : ∀ r ∈ rows, r ≠ []) :
    parseCSV (renderCSV rows) = rows :=
  parseCSVF_render rows hrows _
    (by have := renderCSV_length_ge rows; omega)

/-- Serialize rows of string fields (the dict values after Python's
`str()` conversion) to the artifact text. -/
def renderCSVString (rows : List (List String)) : String :=
  String.mk (renderCSV (rows.map (fun rec => rec.map String.data)))

/-- Modelled from the spec: parse the artifact text back into rows of
string fields. -/
def parseCSVString (s : String) : List (List String) :=
  (parseCSV s.data).map (fun rec => rec.map String.mk)

lemma parseCSVString_renderCSVString (rows : List (List String))
    (hrows : ∀ r ∈ rows, r ≠ []) :
    parseCSVString (renderCSVString rows) = rows := by
  unfold parseCSVString renderCSVString
  rw [show (String.mk (renderCSV (rows.map (fun rec => rec.map String.data)))).data =
    renderCSV (rows.map (fun rec => rec.map String.data)) from rfl]
  rw [parseCSV_renderCSV _ (by
    intro r hr
    simp only [List.mem_map] at hr
    obtain ⟨r0, hr0, rfl⟩ := hr
    simpa using hrows r0 hr0)]
  have hmk : ∀ s : String, String.mk s.data = s := fun _ => rfl
  simp [List.map_map, Function.comp_def, hmk]

/-- The fixed header row written by `generate_report`
(`self.headers` in the source). -/
def headers : List String :=
  ["Step Number", "Step Name", "Status", "Duration (seconds)",
   "Details", "Error Message"]

/-- Python's `str()` on the stored two-decimal duration value (the value
was rounded by `round(duration, 2)` at `add_step` time): an integer part,
a dot, and one or two fractional digits with a trailing zero dropped. -/
def showDur (q : Rat) : String :=
  let m : Int := (200 * q.num + (q.den : Int)).fdiv (2 * (q.den : Int))
  let sign := if m < 0 then "-" else ""
  let a := m.natAbs
  let ip := a / 100
  let fp := a % 100
  sign ++ toString ip ++ "." ++
    (if fp % 10 = 0 then toString (fp / 10)
     else (if fp < 10 then "0" else "") ++ toString fp)

/-- The six string cells `csv.DictWriter` writes for one row, in header
order.  `str()` of the empty step number of a summary row is the empty
string. -/
def Row.toFields (s : Row) : List String :=
  [(match s.stepNumber with | some n => toString n | none => ""),
   s.stepName, s.status, showDur s.duration, s.details, s.errorMessage]

/-- `CSVReporter.generate_report`: the text written to the report file —
the header row followed by one record per entry of `self.steps`. -/
def CSVReporter.generate_report (r : CSVReporter) : String :=
  renderCSVString (headers :: r.steps.map Row.toFields)

/-- C6: exporting a recorded step sequence finalized with the summary
writes the fixed header row plus one record per step in recorded order
plus the trailing SUMMARY record, and parsing the artifact text
reconstructs exactly that ordered step data (round-trip). -/
theorem C6_export_roundtrip (r : CSVReporter) :
    parseCSVString ((r.add_summary).generate_report) =
      headers :: ((r.steps.map Row.toFields) ++ [(summaryRow r).toFields]) ∧
    (summaryRow r).toFields.head? = some "" ∧
    (summaryRow r).toFields.get? 1 = some "SUMMARY" := by
  refine ⟨?_, rfl, rfl⟩
  have hsteps : (r.add_summary).steps = r.steps ++ [summaryRow r] := rfl
  rw [CSVReporter.generate_report, hsteps, List.map_append]
  exact parseCSVString_renderCSVString _ (by
    intro rec hrec
    have hshape : rec = headers ∨ ∃ s, Row.toFields s = rec := by
      simp only [List.mem_cons, List.mem_append, List.mem_map,
        List.mem_singleton] at hrec
      rcases hrec with rfl | ⟨s, _, rfl⟩ | ⟨s, _, rfl⟩
      · exact Or.inl rfl
      · exact Or.inr ⟨s, rfl⟩
      · exact Or.inr ⟨s, rfl⟩
    rcases hshape with rfl | ⟨s, rfl⟩
    · simp [headers]
    · simp [Row.toFields])

/-! ## Report file naming (`CSVReporter.__init__`)

The constructor builds
`self.csv_file = reports_dir/f"{report_name}_{timestamp}.csv"` with
`timestamp = datetime.now().strftime('%Y%m%d_%H%M%S')`: the format keeps
nothing finer than one second.  A wall-clock instant is modelled down to
microseconds (as `datetime.now()` carries them); the reports directory
prefix is a fixed path. -/

/-- A wall-clock instant as `datetime.now()` observes it. -/
structure Timestamp where
  year : Nat
  month : Nat
  day : Nat
  hour : Nat
  minute : Nat
  second : Nat
  micro : Nat
deriving DecidableEq, Repr

/-- The ASCII digit for `n % 10`. -/
def digitChar (n : Nat) : Char := Char.ofNat (48 + n % 10)

/-- Zero-padded two-digit decimal rendering (`%m`, `%d`, `%H`, `%M`, `%S`). -/
def two (n : Nat) : List Char := [digitChar (n / 10), digitChar n]

/-- Zero-padded four-digit decimal rendering (`%Y` for years below 10000). -/
def four (n : Nat) : List Char :=
  [digitChar (n / 1000), digitChar (n / 100), digitChar (n / 10), digitChar n]

/-- `strftime('%Y%m%d_%H%M%S')`: second granularity, microseconds ignored. -/
def fmtTimestamp (t : Timestamp) : List Char :=
  four t.year ++ two t.month ++ two t.day ++
    '_' :: (two t.hour ++ two t.minute ++ two t.second)

/-- `self.csv_file` as built in `__init__`. -/
def csvFilePath (report_name : String) (t : Timestamp) : List Char :=
  "reports/".data ++ report_name.data ++ '_' :: (fmtTimestamp t ++ ".csv".data)

/-- C4 counterexample: two runs of the reporter started within the same
second — at microseconds 0 and 500000 of 2026-10-12 08:30:00, two
distinct instants — receive the very same report file name, because the
`'%Y%m%d_%H%M%S'` timestamp carries nothing finer than one second; the
second run therefore opens (mode `'w'`) and overwrites the first run's
file.  This refutes the claim that even two runs started within the same
second get distinct file names. -/
theorem C4_counterexample :
    (Timestamp.mk 2026 10 12 8 30 0 0 ≠ Timestamp.mk 2026 10 12 8 30 0 500000) ∧
    csvFilePath "test_execution_report" (Timestamp.mk 2026 10 12 8 30 0 0) =
      csvFilePath "test_execution_report" (Timestamp.mk 2026 10 12 8 30 0 500000) := by
  constructor
  · decide
  · rfl

lemma digitChar_inj (a b : Nat) (h : digitChar a = digitChar b) :
    a % 10 = b % 10 := by
  have hx : a % 10 < 10 := Nat.mod_lt _ (by norm_num)
  have hy : b % 10 < 10 := Nat.mod_lt _ (by norm_num)
  have key : ∀ x < 10, ∀ y < 10,
      Char.ofNat (48 + x) = Char.ofNat (48 + y) → x = y := by decide
  exact key _ hx _ hy h

lemma fmtTimestamp_inj (t1 t2 : Timestamp)
    (hy1 : t1.year < 10000) (hy2 : t2.year < 10000)
    (hmo1 : t1.month < 100) (hmo2 : t2.month < 100)
    (hd1 : t1.day < 100) (hd2 : t2.day < 100)
    (hh1 : t1.hour < 100) (hh2 : t2.hour < 100)
    (hmi1 : t1.minute < 100) (hmi2 : t2.minute < 100)
    (hs1 : t1.second < 100) (hs2 : t2.second < 100)
    (h : fmtTimestamp t1 = fmtTimestamp t2) :
    t1.year = t2.year ∧ t1.month = t2.month ∧ t1.day = t2.day ∧
    t1.hour = t2.hour ∧ t1.minute = t2.minute ∧ t1.second = t2.second := by
  simp only [fmtTimestamp, four, two, List.cons_append, List.nil_append,
    List.append_assoc, List.cons.injEq, and_true] at h
  obtain ⟨a1, a2, a3, a4, b1, b2, c1, c2, _, d1, d2, e1, e2, f1, f2⟩ := h
  refine ⟨?_, ?_, ?_, ?_, ?_, ?_⟩
  · have h1 := digitChar_inj _ _ a1
    have h2 := digitChar_inj _ _ a2
    have h3 := digitChar_inj _ _ a3
    have h4 := digitChar_inj _ _ a4
    omega
  · have h1 := digitChar_inj _ _ b1
    have h2 := digitChar_inj _ _ b2
    omega
  · have h1 := digitChar_inj _ _ c1
    have h2 := digitChar_inj _ _ c2
    omega
  · have h1 := digitChar_inj _ _ d1
    have h2 := digitChar_inj _ _ d2
    omega
  · have h1 := digitChar_inj _ _ e1
    have h2 := digitChar_inj _ _ e2
    omega
  · have h1 := digitChar_inj _ _ f1
    have h2 := digitChar_inj _ _ f2
    omega

/-- C4 amended: the report file name is distinct across two runs exactly
down to second granularity — two runs of the same reporter name whose
start instants differ in some calendar field at or above one second (with
the fields in their calendar ranges) receive distinct file names; runs
within the same second collide. -/
theorem C4_amended_distinct_across_seconds (name : String) (t1 t2 : Timestamp)
    (hy1 : t1.year < 10000) (hy2 : t2.year < 10000)
    (hmo1 : t1.month < 100) (hmo2 : t2.month < 100)
    (hd1 : t1.day < 100) (hd2 : t2.day < 100)
    (hh1 : t1.hour < 100) (hh2 : t2.hour < 100)
    (hmi1 : t1.minute < 100) (hmi2 : t2.minute < 100)
    (hs1 : t1.second < 100) (hs2 : t2.second < 100)
    (hne : ¬(t1.year = t2.year ∧ t1.month = t2.month ∧ t1.day = t2.day ∧
      t1.hour = t2.hour ∧ t1.minute = t2.minute ∧ t1.second = t2.second)) :
    csvFilePath name t1 ≠ csvFilePath name t2 := by
  intro h
  apply hne
  apply fmtTimestamp_inj t1 t2 hy1 hy2 hmo1 hmo2 hd1 hd2 hh1 hh2
    hmi1 hmi2 hs1 hs2
  simp only [csvFilePath, List.append_assoc] at h
  have h1 : name.data ++ '_' :: (fmtTimestamp t1 ++ ['.', 'c', 's', 'v']) =
      name.data ++ '_' :: (fmtTimestamp t2 ++ ['.', 'c', 's', 'v']) :=
    List.append_cancel_left h
  have h2 : fmtTimestamp t1 ++ ['.', 'c', 's', 'v'] =
      fmtTimestamp t2 ++ ['.', 'c', 's', 'v'] := by
    have h3 := List.append_cancel_left h1
    simpa using h3
  exact List.append_cancel_right h2

theorem C4_amended_witness :
    ((2026 : Nat) < 10000 ∧ (10 : Nat) < 100 ∧
      ¬((2026 : Nat) = 2026 ∧ (10 : Nat) = 10 ∧ (12 : Nat) = 12 ∧
        (8 : Nat) = 8 ∧ (30 : Nat) = 30 ∧ (0 : Nat) = 1)) ∧
    csvFilePath "e2e_checkout_test" (Timestamp.mk 2026 10 12 8 30 0 999999) ≠
      csvFilePath "e2e_checkout_test" (Timestamp.mk 2026 10 12 8 30 1 0) :=
  ⟨⟨by decide, by decide, by decide⟩,
    C4_amended_distinct_across_seconds "e2e_checkout_test"
      (Timestamp.mk 2026 10 12 8 30 0 999999) (Timestamp.mk 2026 10 12 8 30 1 0)
      (by decide) (by decide) (by decide) (by decide) (by decide) (by decide)
      (by decide) (by decide) (by decide) (by decide) (by decide) (by decide)
      (by decide)⟩

/-! ## The end-to-end checkout test
(`TestCompleteCheckoutFlow.test_end_to_end_checkout_flow`)

The test drives nine numbered stages; each stage body performs
collaborator calls whose outcomes come from the environment, then either
finishes normally (recording a SUCCESS step with a details string) or
raises (recording a FAILED step with the failure details and the
exception message, and re-raising so that no later stage runs).
`add_summary` and `generate_report` are reached only after all nine
stages succeed. -/

/-- Whether `pat` occurs as a contiguous run of `s` (Python's `in`). -/
def startsWithSeq : List Char → List Char → Bool
  | [], _ => true
  | _ :: _, [] => false
  | p :: ps, c :: cs => p == c && startsWithSeq ps cs

def containsSeq (p : List Char) : List Char → Bool
  | [] => p.isEmpty
  | c :: cs => startsWithSeq p (c :: cs) || containsSeq p cs

/-- Python's `sub in s` on strings. -/
def strContains (s pat : String) : Bool := containsSeq pat.data s.data

/-- Python's `str.lower()` (ASCII as used by the test's messages). -/
def strLower (s : String) : String := String.mk (s.data.map Char.toLower)

/-- Outcome of one iteration of the product loop in step 3.  Everything
inside the loop body is wrapped in a per-product `try/except` that logs
and continues, so each product contributes at most one increment of
`added_count`; the increment happens before the post-add actions
(`close_notification`, `click_logo`), so their failure (caught) keeps the
increment. -/
inductive ProductAttempt : Type
  | searchFail (e : String)
  | noResults
  | addFail (e : String)
  | added (postActionsOk : Bool)
deriving DecidableEq, Repr

/-- `added_count` after the loop over the first three requested
products. -/
def countAdded (attempts : List ProductAttempt) : Nat :=
  (attempts.filter (fun a => match a with
    | .added _ => true
    | _ => false)).length

/-- Result of one configured locator attempt inside `get_cart_total`:
the locator was absent within its wait, or `get_text` raised (caught by
the inner bare `except: continue`), or it produced text `t` (possibly
empty; only non-empty text stops the loop). -/
inductive LocAttempt : Type
  | absent
  | textRaise (e : String)
  | text (t : String)
deriving DecidableEq, Repr

/-- Environment of `CartPage.get_cart_total`: the six configured locator
outcomes in order, and the fallback scan over every `strong` tag —
`none` when `driver.find_elements` or a `.text` read raised (the
surrounding `try/except: pass` then abandons the whole scan), otherwise
the tags' raw texts. -/
structure CartTotalEnv where
  locatorTexts : List LocAttempt
  strongsScan : Option (List String)
deriving DecidableEq, Repr

/-- The value `total` holds after the primary locator loop: the first
non-empty text produced, or the empty string. -/
def firstText : List LocAttempt → String
  | [] => ""
  | .text t :: rest => if t = "" then firstText rest else t
  | _ :: rest => firstText rest

/-- The fallback predicate
`text and '$' in text and text[0].isdigit() or text.startswith('$')`
(Python precedence: the conjunction binds tighter than `or`). -/
def fallbackPred (t : String) : Bool :=
  (!(t = "") && t.data.contains '$' &&
    (match t.data with | c :: _ => c.isDigit | [] => false)) ||
  t.startsWith "$"

/-- The fallback scan over the stripped `strong` texts: the first one
matching `fallbackPred`, if any. -/
def fallbackText (e : CartTotalEnv) : String :=
  match e.strongsScan with
  | none => ""
  | some texts =>
    match (texts.map (fun t => t.trim)).find? fallbackPred with
    | some t => t
    | none => ""

/-- `CartPage.get_cart_total`: tries the configured locators, then the
`strong`-tag fallback, and finally substitutes the informational
placeholder `"Total not displayed"`; every fault along the way is caught,
so the call always returns a string and never raises.  (The outer
`except` branch returning `"Total retrieval failed"` guards operations —
logging, sleeping — that the model treats as non-raising, so it is
unreachable here.) -/
def get_cart_total (e : CartTotalEnv) : String :=
  let primary := firstText e.locatorTexts
  let total := if primary = "" then fallbackText e else primary
  if total = "" then "Total not displayed" else total

/-- Environment for one run of the end-to-end test: the unique generated
email, the billing-address city and country used in the step-6 details
string, every collaborator outcome, and the stage timer durations. -/
structure Env where
  email : String
  navigateToRegistration : PyResult Unit
  registerNewUser : PyResult Bool
  isLoggedInAfterReg : Bool
  logoutResult : PyResult Bool
  loginResult : PyResult Bool
  productAttempts : List ProductAttempt
  navigateToCart : PyResult Unit
  cartItemsCount : Nat
  productNames : List String
  cartTotal : CartTotalEnv
  proceedToCheckout : PyResult Unit
  billingCity : String
  billingCountry : String
  fillBilling : PyResult Unit
  billingContinue : PyResult Unit
  shippingContinue : PyResult Unit
  selectShippingMethod : PyResult Unit
  shippingMethodContinue : PyResult Unit
  selectPaymentMethod : PyResult Unit
  paymentMethodContinue : PyResult Unit
  paymentInfoContinue : PyResult Unit
  clickConfirmOrder : PyResult Unit
  orderSuccessText : PyResult String
  orderNumberText : PyResult String
  durations : List Rat
deriving DecidableEq, Repr

/-- Step 0 (User Registration): navigate, register, assert the returned
flag. -/
def step0Body (env : Env) : PyResult String :=
  match env.navigateToRegistration with
  | .exn e => .exn e
  | .ok _ =>
    match env.registerNewUser with
    | .exn e => .exn e
    | .ok b =>
      if b then .ok ("Registered user: " ++ env.email)
      else .exn "User registration failed"

/-- Step 1 (Logout After Registration): `is_logged_in` never raises; a
logged-in user is logged out and the returned flag asserted, otherwise
only a warning is logged. -/
def step1Body (env : Env) : PyResult String :=
  if env.isLoggedInAfterReg then
    match env.logoutResult with
    | .exn e => .exn e
    | .ok b =>
      if b then .ok "User logged out successfully after registration"
      else .exn "Logout failed"
  else .ok "User logged out successfully after registration"

/-- Step 2 (Login with New Credentials): login, assert the flag. -/
def step2Body (env : Env) : PyResult String :=
  match env.loginResult with
  | .exn e => .exn e
  | .ok b =>
    if b then .ok ("Successfully logged in with new credentials: " ++ env.email)
    else .exn "Login with newly created credentials failed"

/-- Step 3 (Add Products to Cart): loop over `products_to_add[:3]` with
per-product fault tolerance, then `assert added_count > 0`. -/
def step3Body (env : Env) : PyResult String :=
  let k := countAdded (env.productAttempts.take 3)
  if 0 < k then .ok ("Added " ++ toString k ++ " products to cart")
  else .exn "Failed to add any products to cart"

/-- Step 4 (Cart Validation): navigate to the cart, count the items
(`get_cart_items_count` catches internally and returns a number),
`assert cart_items_count > 0`, read the product names and the total
(both catch internally), and log the informational total check. -/
def step4Body (env : Env) : PyResult String :=
  match env.navigateToCart with
  | .exn e => .exn e
  | .ok _ =>
    if 0 < env.cartItemsCount then
      .ok ("Cart items: " ++ toString env.cartItemsCount ++ ", Total: " ++
        get_cart_total env.cartTotal)
    else .exn "Cart is empty"

/-- Step 5 (Proceed to Checkout). -/
def step5Body (env : Env) : PyResult String :=
  match env.proceedToCheckout with
  | .exn e => .exn e
  | .ok _ => .ok "Successfully navigated to checkout"

/-- Step 6 (Fill Billing Address): fill the form, press continue. -/
def step6Body (env : Env) : PyResult String :=
  match env.fillBilling with
  | .exn e => .exn e
  | .ok _ =>
    match env.billingContinue with
    | .exn e => .exn e
    | .ok _ =>
      .ok ("Billing address: " ++ env.billingCity ++ ", " ++ env.billingCountry)

/-- First raised exception among a sequence of calls, if any. -/
def firstExn : List (PyResult Unit) → PyResult Unit
  | [] => .ok ()
  | .exn e :: _ => .exn e
  | .ok _ :: rest => firstExn rest

/-- Step 7 (Complete Checkout): the seven wizard calls in source order —
shipping continue, shipping method select and continue, payment method
select and continue, payment info continue, confirm order. -/
def step7Body (env : Env) : PyResult String :=
  match firstExn [env.shippingContinue, env.selectShippingMethod,
    env.shippingMethodContinue, env.selectPaymentMethod,
    env.paymentMethodContinue, env.paymentInfoContinue,
    env.clickConfirmOrder] with
  | .exn e => .exn e
  | .ok _ => .ok "Shipping: Ground, Payment: Cash on Delivery"

/-- `CheckoutPage.get_order_success_message`: returns the element text,
or the empty string when the lookup raised (the timeout is caught). -/
def get_order_success_message (env : Env) : String :=
  match env.orderSuccessText with
  | .ok m => m
  | .exn _ => ""

/-- Step 8 (Order Completion Validation): read the success message
(which cannot raise), assert it mentions success, read the order number
(also non-raising) and capture a screenshot (non-raising), then build the
details from the first 50 characters of the message. -/
def step8Body (env : Env) : PyResult String :=
  let m := get_order_success_message env
  if strContains (strLower m) "successfully" || strContains (strLower m) "processed" then
    .ok ("Order confirmed. Message: " ++ String.mk (m.data.take 50) ++ "...")
  else .exn ("Unexpected success message: " ++ m)

/-- One numbered stage as the test harness sees it: the number and name
passed to `add_step`, the stage body, the details string used on the
failure path, and the timer duration. -/
structure StepItem where
  num : Int
  name : String
  body : PyResult String
  failDetails : String
  dur : Rat
deriving DecidableEq, Repr

/-- Timer value of stage `i`. -/
def stageDur (env : Env) (i : Nat) : Rat := env.durations.getD i 0

/-- The nine stages of the test in order, with the exact numbers, names
and failure details strings of the `add_step` calls in the source. -/
def stepItems (env : Env) : List StepItem :=
  [{ num := 0, name := "User Registration", body := step0Body env,
     failDetails := "Failed to register user: " ++ env.email, dur := stageDur env 0 },
   { num := 1, name := "Logout After Registration", body := step1Body env,
     failDetails := "Failed to logout after registration", dur := stageDur env 1 },
   { num := 2, name := "Login with New Credentials", body := step2Body env,
     failDetails := "Failed to login with new credentials: " ++ env.email,
     dur := stageDur env 2 },
   { num := 3, name := "Add Products to Cart", body := step3Body env,
     failDetails := "Only added " ++
       toString (countAdded (env.productAttempts.take 3)) ++ " products",
     dur := stageDur env 3 },
   { num := 4, name := "Cart Validation", body := step4Body env,
     failDetails := "Failed to validate cart", dur := stageDur env 4 },
   { num := 5, name := "Proceed to Checkout", body := step5Body env,
     failDetails := "Failed to proceed to checkout", dur := stageDur env 5 },
   { num := 6, name := "Fill Billing Address", body := step6Body env,
     failDetails := "Failed to fill billing address", dur := stageDur env 6 },
   { num := 7, name := "Complete Checkout (Shipping, Payment, Confirm)",
     body := step7Body env,
     failDetails := "Failed to complete checkout flow", dur := stageDur env 7 },
   { num := 8, name := "Order Completion Validation", body := step8Body env,
     failDetails := "Failed to validate order completion", dur := stageDur env 8 }]

/-- The row `add_step` records for one stage, on whichever path the
stage takes. -/
def itemRow (it : StepItem) : Row :=
  match it.body with
  | .ok det =>
    { stepNumber := some it.num, stepName := it.name, status := "SUCCESS",
      duration := round2 it.dur, details := det, errorMessage := "" }
  | .exn e =>
    { stepNumber := some it.num, stepName := it.name, status := "FAILED",
      duration := round2 it.dur, details := it.failDetails, errorMessage := e }

/-- The per-stage try/except/raise chain of the test: each stage records
its step; a failing stage records the FAILED step and re-raises, so no
later stage runs.  Returns the reporter and whether the run completed. -/
def runSteps (rep : CSVReporter) : List StepItem → CSVReporter × Bool
  | [] => (rep, true)
  | it :: rest =>
    match it.body with
    | .ok det =>
      runSteps (rep.add_step it.num it.name "SUCCESS" it.dur det "") rest
    | .exn e =>
      (rep.add_step it.num it.name "FAILED" it.dur it.failDetails e, false)

/-- Outcome of one run of the test. -/
structure RunResult where
  reporter : CSVReporter
  reportWritten : Bool
  passed : Bool
deriving DecidableEq, Repr

/-- One run of `test_end_to_end_checkout_flow`: the reporter is
constructed with name `"e2e_checkout_test"`, the nine stages run in
order, and only a fully successful run reaches `add_summary` and
`generate_report` at the bottom of the test body. -/
def e2eRun (env : Env) : RunResult :=
  let r0 : CSVReporter := { report_name := "e2e_checkout_test", steps := [] }
  let out := runSteps r0 (stepItems env)
  if out.2 then
    { reporter := out.1.add_summary, reportWritten := true, passed := true }
  else
    { reporter := out.1, reportWritten := false, passed := false }


lemma runSteps_inv (items : List StepItem) :
    ∀ rep : CSVReporter,
    rep.steps.map Row.stepNumber =
      (List.range' 0 rep.steps.length).map (fun i => some (Int.ofNat i)) →
    (∀ s ∈ rep.steps, s.status = "SUCCESS") →
    items.map StepItem.num =
      (List.range' rep.steps.length items.length).map (fun i => Int.ofNat i) →
    (runSteps rep items).1.steps.map Row.stepNumber =
      (List.range' 0 (runSteps rep items).1.steps.length).map
        (fun i => some (Int.ofNat i)) ∧
    (∀ s ∈ (runSteps rep items).1.steps.dropLast, s.status = "SUCCESS") ∧
    ((runSteps rep items).2 = true →
      ∀ s ∈ (runSteps rep items).1.steps, s.status = "SUCCESS") := by
  induction items with
  | nil =>
    intro rep hnum hsucc _
    refine ⟨hnum, fun s hs => hsucc s (List.dropLast_subset _ hs), fun _ => hsucc⟩
  | cons it rest ih =>
    intro rep hnum hsucc hitems
    rw [List.length_cons, List.range'_succ, List.map_cons, List.map_cons,
      List.cons.injEq] at hitems
    obtain ⟨hit, hrest⟩ := hitems
    cases hbody : it.body with
    | ok det =>
      have hstep : (runSteps rep (it :: rest)) =
          runSteps (rep.add_step it.num it.name "SUCCESS" it.dur det "") rest := by
        simp [runSteps, hbody]
      rw [hstep]
      apply ih
      · rw [CSVReporter.add_step]
        simp only [List.length_append, List.length_cons, List.length_nil,
          Nat.zero_add]
        rw [List.range'_1_concat, List.map_append, List.map_append, hnum, hit]
        simp
      · intro s hs
        rw [CSVReporter.add_step] at hs
        simp only [List.mem_append, List.mem_singleton] at hs
        rcases hs with hs | rfl
        · exact hsucc s hs
        · rfl
      · rw [CSVReporter.add_step]
        simpa using hrest
    | exn e =>
      have hstep : (runSteps rep (it :: rest)) =
          (rep.add_step it.num it.name "FAILED" it.dur it.failDetails e, false) := by
        simp [runSteps, hbody]
      rw [hstep]
      refine ⟨?_, ?_, ?_⟩
      · rw [CSVReporter.add_step]
        simp only [List.length_append, List.length_cons, List.length_nil,
          Nat.zero_add]
        rw [List.range'_1_concat, List.map_append, List.map_append, hnum, hit]
        simp
      · intro s hs
        rw [CSVReporter.add_step] at hs
        rw [List.dropLast_concat] at hs
        exact hsucc s hs
      · intro hcontra
        exact absurd hcontra (by simp)

lemma mem_isSome_of_contiguous (l : List Row)
    (h : l.map Row.stepNumber =
      (List.range' 0 l.length).map (fun i => some (Int.ofNat i))) :
    ∀ s ∈ l, s.stepNumber.isSome := by
  intro s hs
  have hmem : s.stepNumber ∈ l.map Row.stepNumber := List.mem_map_of_mem _ hs
  rw [h] at hmem
  simp only [List.mem_map] at hmem
  obtain ⟨i, _, hi⟩ := hmem
  simp [← hi]

/-- The steps the test records (the report rows other than the summary
row, which alone has an empty step number). -/
def realSteps (env : Env) : List Row :=
  (e2eRun env).reporter.steps.filter (fun s => s.stepNumber.isSome)

/-- C1: in every run of the test, the recorded steps carry strictly
increasing, contiguous indices 0, 1, 2, … (no gaps or duplicates), and
every step before the last has status SUCCESS — so once a FAILED step is
appended no further step follows it.  (Per-product failures inside
POPULATE_CART are absorbed inside the stage body and never appear as
report steps, so they cannot interrupt the numbering.) -/
theorem C1_step_indices (env : Env) :
    (realSteps env).map Row.stepNumber =
      (List.range' 0 (realSteps env).length).map (fun i => some (Int.ofNat i)) ∧
    ∀ s ∈ (realSteps env).dropLast, s.status = "SUCCESS" := by
  have hitems : (stepItems env).map StepItem.num =
      (List.range' (0 : Nat) 9).map (fun i => Int.ofNat i) := rfl
  have hinv := runSteps_inv (stepItems env)
    { report_name := "e2e_checkout_test", steps := [] }
    (by simp) (by simp) (by simpa using hitems)
  obtain ⟨hnum, hdrop, hall⟩ := hinv
  have hsome := mem_isSome_of_contiguous _ hnum
  rcases hout : runSteps { report_name := "e2e_checkout_test", steps := [] }
    (stepItems env) with ⟨rep, ok⟩
  rw [hout] at hnum hdrop hall hsome
  simp only at hnum hdrop hall hsome
  cases ok with
  | true =>
    have hrep : (e2eRun env).reporter = rep.add_summary := by
      simp [e2eRun, hout]
    have hreal : realSteps env = rep.steps := by
      rw [realSteps, hrep, CSVReporter.add_summary]
      simp only [List.filter_append]
      rw [List.filter_eq_self.mpr (by
        intro s hs
        simpa using hsome s hs)]
      simp [summaryRow]
    rw [hreal]
    exact ⟨hnum, fun s hs => hall rfl s (List.dropLast_subset _ hs)⟩
  | false =>
    have hrep : (e2eRun env).reporter = rep := by
      simp [e2eRun, hout]
    have hreal : realSteps env = rep.steps := by
      rw [realSteps, hrep]
      exact List.filter_eq_self.mpr (by
        intro s hs
        simpa using hsome s hs)
    rw [hreal]
    exact ⟨hnum, hdrop⟩

/-- Placeholder row for list indexing. -/
def defaultRow : Row :=
  { stepNumber := none, stepName := "", status := "", duration := 0,
    details := "", errorMessage := "" }

/-- Placeholder stage for list indexing. -/
def defaultItem : StepItem :=
  { num := 0, name := "", body := .ok "", failDetails := "", dur := 0 }

lemma runSteps_append (items : List StepItem) :
    ∀ rep : CSVReporter, ∃ tail,
      (runSteps rep items).1.steps = rep.steps ++ tail := by
  induction items with
  | nil => exact fun rep => ⟨[], by simp [runSteps]⟩
  | cons it rest ih =>
    intro rep
    cases hbody : it.body with
    | ok det =>
      obtain ⟨tail, htail⟩ := ih (rep.add_step it.num it.name "SUCCESS" it.dur det "")
      refine ⟨Row.mk (some it.num) it.name "SUCCESS" (round2 it.dur) det "" :: tail, ?_⟩
      rw [show runSteps rep (it :: rest) =
        runSteps (rep.add_step it.num it.name "SUCCESS" it.dur det "") rest by
          simp [runSteps, hbody]]
      rw [htail, CSVReporter.add_step, List.append_assoc]
      rfl
    | exn e =>
      refine ⟨[Row.mk (some it.num) it.name "FAILED" (round2 it.dur) it.failDetails e], ?_⟩
      rw [show runSteps rep (it :: rest) =
        (rep.add_step it.num it.name "FAILED" it.dur it.failDetails e, false) by
          simp [runSteps, hbody]]
      rw [CSVReporter.add_step]

lemma runSteps_all_ok (items : List StepItem) :
    ∀ rep : CSVReporter, (∀ it ∈ items, it.body.isOk = true) →
      (runSteps rep items).1.steps = rep.steps ++ items.map itemRow ∧
      (runSteps rep items).2 = true := by
  induction items with
  | nil => exact fun rep _ => ⟨by simp [runSteps], rfl⟩
  | cons it rest ih =>
    intro rep hok
    cases hbody : it.body with
    | ok det =>
      have hstep : runSteps rep (it :: rest) =
          runSteps (rep.add_step it.num it.name "SUCCESS" it.dur det "") rest := by
        simp [runSteps, hbody]
      obtain ⟨h1, h2⟩ := ih (rep.add_step it.num it.name "SUCCESS" it.dur det "")
        (fun x hx => hok x (by simp [hx]))
      rw [hstep]
      refine ⟨?_, h2⟩
      rw [h1, CSVReporter.add_step, List.map_cons, List.append_assoc,
        List.singleton_append, itemRow, hbody]
    | exn e =>
      have := hok it (by simp)
      rw [hbody] at this
      exact absurd this (by simp [PyResult.isOk])

lemma runSteps_first_error (items : List StepItem) :
    ∀ (rep : CSVReporter) (k : Nat) (e : String), k < items.length →
      (∀ j, j < k → ((items.getD j defaultItem).body.isOk = true)) →
      (items.getD k defaultItem).body = .exn e →
      (runSteps rep items).1.steps =
        rep.steps ++ (items.take (k + 1)).map itemRow ∧
      (runSteps rep items).2 = false := by
  induction items with
  | nil =>
    intro rep k e hk _ _
    exact absurd hk (by simp)
  | cons it rest ih =>
    intro rep k e hk hprev hfail
    cases k with
    | zero =>
      rw [List.getD_cons_zero] at hfail
      have hstep : runSteps rep (it :: rest) =
          (rep.add_step it.num it.name "FAILED" it.dur it.failDetails e, false) := by
        simp [runSteps, hfail]
      rw [hstep]
      refine ⟨?_, rfl⟩
      rw [CSVReporter.add_step]
      simp [itemRow, hfail]
    | succ k' =>
      have h0 : it.body.isOk = true := by
        have := hprev 0 (Nat.succ_pos _)
        rwa [List.getD_cons_zero] at this
      cases hbody : it.body with
      | exn e2 =>
        rw [hbody] at h0
        exact absurd h0 (by simp [PyResult.isOk])
      | ok det =>
        have hstep : runSteps rep (it :: rest) =
            runSteps (rep.add_step it.num it.name "SUCCESS" it.dur det "") rest := by
          simp [runSteps, hbody]
        rw [hstep]
        obtain ⟨h1, h2⟩ := ih (rep.add_step it.num it.name "SUCCESS" it.dur det "")
          k' e (by simpa using Nat.lt_of_succ_lt_succ hk)
          (fun j hj => by
            have := hprev (j + 1) (Nat.succ_lt_succ hj)
            rwa [List.getD_cons_succ] at this)
          (by
            rw [List.getD_cons_succ] at hfail
            exact hfail)
        refine ⟨?_, h2⟩
        rw [h1, CSVReporter.add_step, List.take_succ_cons, List.map_cons,
          List.append_assoc, List.singleton_append, itemRow, hbody]

lemma runSteps_ok_prefix (items : List StepItem) :
    ∀ (rep : CSVReporter) (j : Nat), j < items.length →
      (∀ i, i ≤ j → ((items.getD i defaultItem).body.isOk = true)) →
      (runSteps rep items).1.steps.getD (rep.steps.length + j) defaultRow =
        itemRow (items.getD j defaultItem) := by
  induction items with
  | nil =>
    intro rep j hj _
    exact absurd hj (by simp)
  | cons it rest ih =>
    intro rep j hj hok
    have h0 : it.body.isOk = true := by
      have := hok 0 (Nat.zero_le _)
      rwa [List.getD_cons_zero] at this
    cases hbody : it.body with
    | exn e =>
      rw [hbody] at h0
      exact absurd h0 (by simp [PyResult.isOk])
    | ok det =>
      have hstep : runSteps rep (it :: rest) =
          runSteps (rep.add_step it.num it.name "SUCCESS" it.dur det "") rest := by
        simp [runSteps, hbody]
      rw [hstep]
      cases j with
      | zero =>
        obtain ⟨tail, htail⟩ :=
          runSteps_append rest (rep.add_step it.num it.name "SUCCESS" it.dur det "")
        rw [htail, CSVReporter.add_step, List.getD_cons_zero]
        simp only [List.append_assoc, List.singleton_append]
        rw [List.getD_append_right _ _ _ _ (by omega)]
        simp [itemRow, hbody]
      | succ j' =>
        have hrec := ih (rep.add_step it.num it.name "SUCCESS" it.dur det "")
          j' (by simpa using Nat.lt_of_succ_lt_succ hj)
          (fun i hi => by
            have := hok (i + 1) (Nat.succ_le_succ hi)
            rwa [List.getD_cons_succ] at this)
        rw [List.getD_cons_succ]
        rw [show (rep.add_step it.num it.name "SUCCESS" it.dur det "").steps.length =
          rep.steps.length + 1 by simp [CSVReporter.add_step]] at hrec
        rw [show rep.steps.length + (j' + 1) = rep.steps.length + 1 + j' by omega]
        exact hrec

lemma runSteps_ok_length (items : List StepItem) :
    ∀ (rep : CSVReporter) (j : Nat), j < items.length →
      (∀ i, i ≤ j → ((items.getD i defaultItem).body.isOk = true)) →
      rep.steps.length + j < (runSteps rep items).1.steps.length := by
  induction items with
  | nil =>
    intro rep j hj _
    exact absurd hj (by simp)
  | cons it rest ih =>
    intro rep j hj hok
    have h0 : it.body.isOk = true := by
      have := hok 0 (Nat.zero_le _)
      rwa [List.getD_cons_zero] at this
    cases hbody : it.body with
    | exn e =>
      rw [hbody] at h0
      exact absurd h0 (by simp [PyResult.isOk])
    | ok det =>
      have hstep : runSteps rep (it :: rest) =
          runSteps (rep.add_step it.num it.name "SUCCESS" it.dur det "") rest := by
        simp [runSteps, hbody]
      rw [hstep]
      cases j with
      | zero =>
        obtain ⟨tail, htail⟩ :=
          runSteps_append rest (rep.add_step it.num it.name "SUCCESS" it.dur det "")
        rw [htail, CSVReporter.add_step]
        simp only [List.length_append, List.length_cons, List.length_nil]
        omega
      | succ j' =>
        have hrec := ih (rep.add_step it.num it.name "SUCCESS" it.dur det "")
          j' (by simpa using Nat.lt_of_succ_lt_succ hj)
          (fun i hi => by
            have := hok (i + 1) (Nat.succ_le_succ hi)
            rwa [List.getD_cons_succ] at this)
        rw [show (rep.add_step it.num it.name "SUCCESS" it.dur det "").steps.length =
          rep.steps.length + 1 by simp [CSVReporter.add_step]] at hrec
        omega

/-- A fully successful environment: every collaborator call succeeds,
two of three products are added, the cart shows two items with a
readable total, and the confirmation message appears. -/
def envAllOk : Env :=
  { email := "testuser_1@example.com",
    navigateToRegistration := .ok (),
    registerNewUser := .ok true,
    isLoggedInAfterReg := true,
    logoutResult := .ok true,
    loginResult := .ok true,
    productAttempts := [.added true, .noResults, .added true],
    navigateToCart := .ok (),
    cartItemsCount := 2,
    productNames := ["Laptop", "Smartphone"],
    cartTotal := { locatorTexts := [.text "$1200.00"], strongsScan := some [] },
    proceedToCheckout := .ok (),
    billingCity := "NYC",
    billingCountry := "United States",
    fillBilling := .ok (),
    billingContinue := .ok (),
    shippingContinue := .ok (),
    selectShippingMethod := .ok (),
    shippingMethodContinue := .ok (),
    selectPaymentMethod := .ok (),
    paymentMethodContinue := .ok (),
    paymentInfoContinue := .ok (),
    clickConfirmOrder := .ok (),
    orderSuccessText := .ok "Your order has been successfully processed!",
    orderNumberText := .ok "Order number: 1768970",
    durations := [1, 1, 1, 1, 1, 1, 1, 1, 1] }

/-- A run whose REGISTER stage fails: `register_new_user` returns
`False`, so the step-0 assertion raises. -/
def envRegFail : Env := { envAllOk with registerNewUser := .ok false }

/-- A run in which no product could be added: the first search raises,
the second finds no results, the third add-to-cart click raises. -/
def envNoProducts : Env :=
  { envAllOk with productAttempts :=
      [.searchFail "no such element", .noResults, .addFail "click intercepted"] }

/-- The six-locator all-absent, scan-aborted cart-total environment. -/
def unreadableTotal : CartTotalEnv :=
  { locatorTexts := [.absent, .absent, .absent, .absent, .absent, .absent],
    strongsScan := none }

/-- A run reaching the cart with zero items and no readable total. -/
def envEmptyCart : Env :=
  { envAllOk with cartItemsCount := 0, cartTotal := unreadableTotal }

/-- A run in which the order-success-message wait times out: the element
lookup raises a timeout that `get_order_success_message` swallows. -/
def envConfirmTimeout : Env :=
  { envAllOk with orderSuccessText := .exn "Message: timed out waiting for order completion element" }

/-- C3 (code-level behaviour at a failing run): when the REGISTER stage
fails, the reporter holds exactly the steps up to and including the
failing one — here the single step 0, recorded FAILED with the assertion
message — but the run re-raises before ever reaching `generate_report`
(which sits after step 8 in the test body), so NO report artifact is
written.  The claim's "a report artifact is still produced" does not hold
of the code. -/
theorem C3_failed_run_writes_no_artifact :
    (e2eRun envRegFail).passed = false ∧
    (e2eRun envRegFail).reportWritten = false ∧
    (e2eRun envRegFail).reporter.steps =
      [Row.mk (some 0) "User Registration" "FAILED" 1
        "Failed to register user: testuser_1@example.com"
        "User registration failed"] := by
  refine ⟨rfl, rfl, ?_⟩
  decide

/-- The reporter as constructed at the top of the test
(`CSVReporter("e2e_checkout_test")`). -/
def freshReporter : CSVReporter :=
  { report_name := "e2e_checkout_test", steps := [] }

/-- C5 (POPULATE_CART): with the three earlier stages succeeding, if
zero of the requested products were added the stage raises the assertion
`"Failed to add any products to cart"`, is recorded FAILED as the
fourth and last step, and the run halts without a report; if at least
one product was added the stage finishes with the details string
reporting the exact count, and is recorded SUCCESS as step 3.  Each
individual product-add failure is caught inside the loop (it only
lowers `added_count`) and never fails the stage on its own. -/
theorem C5_populate_cart (env : Env)
    (h0 : (step0Body env).isOk = true)
    (h1 : (step1Body env).isOk = true)
    (h2 : (step2Body env).isOk = true) :
    (countAdded (env.productAttempts.take 3) = 0 →
      step3Body env = .exn "Failed to add any products to cart" ∧
      (e2eRun env).passed = false ∧
      (e2eRun env).reportWritten = false ∧
      (e2eRun env).reporter.steps.length = 4 ∧
      ∃ last, (e2eRun env).reporter.steps.getLast? = some last ∧
        last.stepName = "Add Products to Cart" ∧ last.status = "FAILED" ∧
        last.errorMessage = "Failed to add any products to cart") ∧
    (0 < countAdded (env.productAttempts.take 3) →
      step3Body env =
        .ok ("Added " ++ toString (countAdded (env.productAttempts.take 3)) ++
          " products to cart") ∧
      (e2eRun env).reporter.steps.getD 3 defaultRow =
        Row.mk (some 3) "Add Products to Cart" "SUCCESS"
          (round2 (stageDur env 3))
          ("Added " ++ toString (countAdded (env.productAttempts.take 3)) ++
            " products to cart") "") := by
  constructor
  · intro hz
    have hbody3 : step3Body env = .exn "Failed to add any products to cart" := by
      simp [step3Body, hz]
    have hfe := runSteps_first_error (stepItems env) freshReporter 3
      "Failed to add any products to cart" (by simp [stepItems])
      (fun j hj => by
        interval_cases j
        · exact h0
        · exact h1
        · exact h2)
      hbody3
    obtain ⟨hsteps, hfalse⟩ := hfe
    rcases hout : runSteps freshReporter (stepItems env) with ⟨rep, ok⟩
    rw [hout] at hsteps hfalse
    simp only at hsteps hfalse
    subst hfalse
    have hrun : e2eRun env =
        { reporter := rep, reportWritten := false, passed := false } := by
      simp only [e2eRun, freshReporter] at hout ⊢
      rw [hout]
      rfl
    rw [hrun]
    have htake : (stepItems env).take (3 + 1) =
        [(stepItems env).getD 0 defaultItem, (stepItems env).getD 1 defaultItem,
         (stepItems env).getD 2 defaultItem, (stepItems env).getD 3 defaultItem] := rfl
    rw [htake] at hsteps
    simp only [freshReporter, List.nil_append, List.map_cons, List.map_nil] at hsteps
    have hb : ((stepItems env).getD 3 defaultItem).body = step3Body env := rfl
    have hrowF : itemRow ((stepItems env).getD 3 defaultItem) =
        Row.mk (some 3) "Add Products to Cart" "FAILED" (round2 (stageDur env 3))
          ("Only added " ++ toString (countAdded (env.productAttempts.take 3)) ++
            " products") "Failed to add any products to cart" := by
      rw [itemRow, hb, hbody3]
      rfl
    refine ⟨hbody3, rfl, rfl, by rw [hsteps]; rfl, ?_⟩
    refine ⟨itemRow ((stepItems env).getD 3 defaultItem),
      by rw [hsteps]; rfl, ?_, ?_, ?_⟩
    · rw [hrowF]
    · rw [hrowF]
    · rw [hrowF]
  · intro hpos
    have hbody3 : step3Body env =
        .ok ("Added " ++ toString (countAdded (env.productAttempts.take 3)) ++
          " products to cart") := by
      simp [step3Body, hpos, Nat.pos_iff_ne_zero]
    refine ⟨hbody3, ?_⟩
    have hokto3 : ∀ i, i ≤ 3 →
        (((stepItems env).getD i defaultItem).body.isOk = true) := by
      intro i hi
      interval_cases i
      · exact h0
      · exact h1
      · exact h2
      · show (step3Body env).isOk = true
        rw [hbody3]
        rfl
    have hpre := runSteps_ok_prefix (stepItems env) freshReporter 3
      (by simp [stepItems]) hokto3
    have hlen := runSteps_ok_length (stepItems env) freshReporter 3
      (by simp [stepItems]) hokto3
    rcases hout : runSteps freshReporter (stepItems env) with ⟨rep, ok⟩
    rw [hout] at hpre hlen
    simp only [freshReporter, List.length_nil, Nat.zero_add] at hpre hlen
    have hb : ((stepItems env).getD 3 defaultItem).body = step3Body env := rfl
    have hrow : itemRow ((stepItems env).getD 3 defaultItem) =
        Row.mk (some 3) "Add Products to Cart" "SUCCESS"
          (round2 (stageDur env 3))
          ("Added " ++ toString (countAdded (env.productAttempts.take 3)) ++
            " products to cart") "" := by
      rw [itemRow, hb, hbody3]
      rfl
    cases ok with
    | true =>
      have hrep : (e2eRun env).reporter = rep.add_summary := by
        simp only [e2eRun, freshReporter] at hout ⊢
        rw [hout]
        rfl
      rw [hrep, CSVReporter.add_summary]
      rw [List.getD_append _ _ _ _ (by omega)]
      rw [hpre, hrow]
    | false =>
      have hrep : (e2eRun env).reporter = rep := by
        simp only [e2eRun, freshReporter] at hout ⊢
        rw [hout]
        rfl
      rw [hrep, hpre, hrow]

theorem C5_populate_cart_witness :
    ((step0Body envNoProducts).isOk = true ∧
     (step1Body envNoProducts).isOk = true ∧
     (step2Body envNoProducts).isOk = true ∧
     countAdded (envNoProducts.productAttempts.take 3) = 0) ∧
    (step3Body envNoProducts = .exn "Failed to add any products to cart" ∧
     (e2eRun envNoProducts).passed = false ∧
     (e2eRun envNoProducts).reportWritten = false ∧
     (e2eRun envNoProducts).reporter.steps.length = 4 ∧
     ∃ last, (e2eRun envNoProducts).reporter.steps.getLast? = some last ∧
       last.stepName = "Add Products to Cart" ∧ last.status = "FAILED" ∧
       last.errorMessage = "Failed to add any products to cart") :=
  ⟨⟨by decide, by decide, by decide, by decide⟩,
   (C5_populate_cart envNoProducts (by decide) (by decide) (by decide)).1
     (by decide)⟩

/-- C8 (VALIDATE_CART): with the cart page reached (`navigate` ok) after
four successful stages, the stage outcome is decided by the item count
alone — it succeeds exactly when the count is positive, regardless of
whether the total could be read; a zero count raises `"Cart is empty"`
and the stage is recorded FAILED as the fifth and last step, halting the
run.  `get_cart_total` always returns a string, and when neither the
configured locators nor the `strong`-tag fallback yield a total it
returns the informational placeholder `"Total not displayed"` instead of
failing. -/
theorem C8_validate_cart (env : Env)
    (hnav : env.navigateToCart = .ok ())
    (h0 : (step0Body env).isOk = true)
    (h1 : (step1Body env).isOk = true)
    (h2 : (step2Body env).isOk = true)
    (h3 : (step3Body env).isOk = true) :
    ((step4Body env).isOk = true ↔ 0 < env.cartItemsCount) ∧
    (env.cartItemsCount = 0 →
      step4Body env = .exn "Cart is empty" ∧
      (e2eRun env).passed = false ∧
      (e2eRun env).reportWritten = false ∧
      (e2eRun env).reporter.steps.length = 5 ∧
      ∃ last, (e2eRun env).reporter.steps.getLast? = some last ∧
        last.stepName = "Cart Validation" ∧ last.status = "FAILED" ∧
        last.errorMessage = "Cart is empty") ∧
    get_cart_total env.cartTotal ≠ "" ∧
    (firstText env.cartTotal.locatorTexts = "" ∧ fallbackText env.cartTotal = "" →
      get_cart_total env.cartTotal = "Total not displayed") := by
  refine ⟨?_, ?_, ?_, ?_⟩
  · by_cases hc : 0 < env.cartItemsCount <;>
      simp [step4Body, hnav, hc, PyResult.isOk]
  · intro hz
    have hbody4 : step4Body env = .exn "Cart is empty" := by
      simp [step4Body, hnav, hz]
    have hfe := runSteps_first_error (stepItems env) freshReporter 4
      "Cart is empty" (by simp [stepItems])
      (fun j hj => by
        interval_cases j
        · exact h0
        · exact h1
        · exact h2
        · exact h3)
      hbody4
    obtain ⟨hsteps, hfalse⟩ := hfe
    rcases hout : runSteps freshReporter (stepItems env) with ⟨rep, ok⟩
    rw [hout] at hsteps hfalse
    simp only at hsteps hfalse
    subst hfalse
    have hrun : e2eRun env =
        { reporter := rep, reportWritten := false, passed := false } := by
      simp only [e2eRun, freshReporter] at hout ⊢
      rw [hout]
      rfl
    rw [hrun]
    have htake : (stepItems env).take (4 + 1) =
        [(stepItems env).getD 0 defaultItem, (stepItems env).getD 1 defaultItem,
         (stepItems env).getD 2 defaultItem, (stepItems env).getD 3 defaultItem,
         (stepItems env).getD 4 defaultItem] := rfl
    rw [htake] at hsteps
    simp only [freshReporter, List.nil_append, List.map_cons, List.map_nil] at hsteps
    have hb : ((stepItems env).getD 4 defaultItem).body = step4Body env := rfl
    have hrowF : itemRow ((stepItems env).getD 4 defaultItem) =
        Row.mk (some 4) "Cart Validation" "FAILED" (round2 (stageDur env 4))
          "Failed to validate cart" "Cart is empty" := by
      rw [itemRow, hb, hbody4]
      rfl
    refine ⟨hbody4, rfl, rfl, by rw [hsteps]; rfl, ?_⟩
    refine ⟨itemRow ((stepItems env).getD 4 defaultItem),
      by rw [hsteps]; rfl, ?_, ?_, ?_⟩
    · rw [hrowF]
    · rw [hrowF]
    · rw [hrowF]
  · rw [get_cart_total]
    by_cases ht : (if firstText env.cartTotal.locatorTexts = ""
        then fallbackText env.cartTotal
        else firstText env.cartTotal.locatorTexts) = "" <;>
      simp [ht]
  · intro ⟨hp, hf⟩
    simp [get_cart_total, hp, hf]

theorem C8_validate_cart_witness :
    (envEmptyCart.navigateToCart = .ok () ∧
     (step0Body envEmptyCart).isOk = true ∧
     (step1Body envEmptyCart).isOk = true ∧
     (step2Body envEmptyCart).isOk = true ∧
     (step3Body envEmptyCart).isOk = true ∧
     envEmptyCart.cartItemsCount = 0) ∧
    (step4Body envEmptyCart = .exn "Cart is empty" ∧
     (e2eRun envEmptyCart).passed = false ∧
     (e2eRun envEmptyCart).reportWritten = false ∧
     (e2eRun envEmptyCart).reporter.steps.length = 5 ∧
     ∃ last, (e2eRun envEmptyCart).reporter.steps.getLast? = some last ∧
       last.stepName = "Cart Validation" ∧ last.status = "FAILED" ∧
       last.errorMessage = "Cart is empty") ∧
    get_cart_total envEmptyCart.cartTotal = "Total not displayed" :=
  ⟨⟨by decide, by decide, by decide, by decide, by decide, by decide⟩,
   (C8_validate_cart envEmptyCart (by decide) (by decide) (by decide)
     (by decide) (by decide)).2.1 (by decide),
   (C8_validate_cart envEmptyCart (by decide) (by decide) (by decide)
     (by decide) (by decide)).2.2.2 (by decide)⟩

/-- C9 counterexample: in the run `envConfirmTimeout`, the CONFIRM
post-condition wait (the order-success-message lookup) times out — the
lookup raises, but `get_order_success_message` catches the exception and
returns the empty string.  The step that then fails (step 8, the
validation of the order completion) is recorded FAILED with error
message `"Unexpected success message: "`, which contains no timeout
indicator at all (neither `"timeout"` in any casing nor the exception's
own text survives).  This refutes the claim that the recorded error
message contains a timeout indicator. -/
theorem C9_counterexample :
    envConfirmTimeout.orderSuccessText =
      .exn "Message: timed out waiting for order completion element" ∧
    (e2eRun envConfirmTimeout).passed = false ∧
    (e2eRun envConfirmTimeout).reporter.steps.length = 9 ∧
    (e2eRun envConfirmTimeout).reporter.steps.getLast? =
      some (Row.mk (some 8) "Order Completion Validation" "FAILED" 1
        "Failed to validate order completion" "Unexpected success message: ") ∧
    strContains (strLower "Unexpected success message: ") "timeout" = false := by
  refine ⟨rfl, rfl, rfl, ?_, by decide⟩
  decide

/-- C9 amended: if the CONFIRM stage's post-condition wait (the
order-success-message lookup) exceeds its timeout after the first eight
stages succeeded, the raised timeout is swallowed by
`get_order_success_message` (which returns the empty string), and the
order-validation step is recorded FAILED as the ninth and last step with
error message `"Unexpected success message: "` — carrying no timeout
indicator — after which no further steps are appended, no summary is
added, and no report artifact is written. -/
theorem C9_amended_swallowed_timeout (env : Env) (e : String)
    (hprev : ∀ j, j < 8 → ((stepItems env).getD j defaultItem).body.isOk = true)
    (hto : env.orderSuccessText = .exn e) :
    get_order_success_message env = "" ∧
    step8Body env = .exn "Unexpected success message: " ∧
    (e2eRun env).passed = false ∧
    (e2eRun env).reportWritten = false ∧
    (e2eRun env).reporter.steps.length = 9 ∧
    ∃ last, (e2eRun env).reporter.steps.getLast? = some last ∧
      last.stepNumber = some 8 ∧
      last.stepName = "Order Completion Validation" ∧
      last.status = "FAILED" ∧
      last.errorMessage = "Unexpected success message: " := by
  have hmsg : get_order_success_message env = "" := by
    simp [get_order_success_message, hto]
  have hcond : (strContains (strLower "") "successfully" ||
      strContains (strLower "") "processed") = false := by decide
  have hbody8 : step8Body env = .exn "Unexpected success message: " := by
    rw [step8Body, hmsg]
    simp only [hcond]
    rfl
  have hfe := runSteps_first_error (stepItems env) freshReporter 8
    "Unexpected success message: " (by simp [stepItems]) hprev hbody8
  obtain ⟨hsteps, hfalse⟩ := hfe
  rcases hout : runSteps freshReporter (stepItems env) with ⟨rep, ok⟩
  rw [hout] at hsteps hfalse
  simp only at hsteps hfalse
  subst hfalse
  have hrun : e2eRun env =
      { reporter := rep, reportWritten := false, passed := false } := by
    simp only [e2eRun, freshReporter] at hout ⊢
    rw [hout]
    rfl
  rw [hrun]
  have htake : (stepItems env).take (8 + 1) =
      [(stepItems env).getD 0 defaultItem, (stepItems env).getD 1 defaultItem,
       (stepItems env).getD 2 defaultItem, (stepItems env).getD 3 defaultItem,
       (stepItems env).getD 4 defaultItem, (stepItems env).getD 5 defaultItem,
       (stepItems env).getD 6 defaultItem, (stepItems env).getD 7 defaultItem,
       (stepItems env).getD 8 defaultItem] := rfl
  rw [htake] at hsteps
  simp only [freshReporter, List.nil_append, List.map_cons, List.map_nil] at hsteps
  have hb : ((stepItems env).getD 8 defaultItem).body = step8Body env := rfl
  have hrowF : itemRow ((stepItems env).getD 8 defaultItem) =
      Row.mk (some 8) "Order Completion Validation" "FAILED"
        (round2 (stageDur env 8)) "Failed to validate order completion"
        "Unexpected success message: " := by
    rw [itemRow, hb, hbody8]
    rfl
  refine ⟨hmsg, hbody8, rfl, rfl, by rw [hsteps]; rfl, ?_⟩
  refine ⟨itemRow ((stepItems env).getD 8 defaultItem),
    by rw [hsteps]; rfl, ?_, ?_, ?_, ?_⟩
  · rw [hrowF]
  · rw [hrowF]
  · rw [hrowF]
  · rw [hrowF]

theorem C9_amended_swallowed_timeout_witness :
    ((∀ j, j < 8 →
       ((stepItems envConfirmTimeout).getD j defaultItem).body.isOk = true) ∧
     envConfirmTimeout.orderSuccessText =
       .exn "Message: timed out waiting for order completion element") ∧
    (get_order_success_message envConfirmTimeout = "" ∧
     step8Body envConfirmTimeout = .exn "Unexpected success message: " ∧
     (e2eRun envConfirmTimeout).passed = false ∧
     (e2eRun envConfirmTimeout).reportWritten = false ∧
     (e2eRun envConfirmTimeout).reporter.steps.length = 9 ∧
     ∃ last, (e2eRun envConfirmTimeout).reporter.steps.getLast? = some last ∧
       last.stepNumber = some 8 ∧
       last.stepName = "Order Completion Validation" ∧
       last.status = "FAILED" ∧
       last.errorMessage = "Unexpected success message: ") :=
  ⟨⟨by decide, by decide⟩,
   C9_amended_swallowed_timeout envConfirmTimeout
     "Message: timed out waiting for order completion element"
     (by decide) (by decide)⟩

/-! ## `CheckoutPage.fill_billing_address` (`pages/checkout_page.py`)

The method reads the address dictionary with `.get(key, default)` for
the required fields (so a missing key becomes the default, never a
`KeyError`), guards the optional `company` and `address2` fields with
Python truthiness (`if address_data.get(key):`) before the bracket
access `address_data[key]`, and emits one form-fill action per field.
The driver-level sends are collaborator calls; here the dict-access
logic is the subject, so each send is recorded as an action. -/

/-- One form interaction emitted by `fill_billing_address`. -/
inductive FillAction : Type
  | sendKeys (field : String) (value : String)
  | selectDropdown (field : String) (value : String)
deriving DecidableEq, Repr

/-- Python `dict.get(k, default)` over an association-list dictionary. -/
def dictGetD (d : List (String × String)) (k v : String) : String :=
  match d.find? (fun p => p.1 == k) with
  | some p => p.2
  | none => v

/-- Python `dict.get(k)` (`None` for a missing key). -/
def dictFind (d : List (String × String)) (k : String) : Option String :=
  match d.find? (fun p => p.1 == k) with
  | some p => some p.2
  | none => none

/-- Python `dict[k]`: raises `KeyError` on a missing key. -/
def dictItem (d : List (String × String)) (k : String) : PyResult String :=
  match dictFind d k with
  | some v => .ok v
  | none => .exn ("KeyError: " ++ k)

/-- Python truthiness of `dict.get(k)`: present and non-empty. -/
def truthy (o : Option String) : Bool :=
  match o with
  | some s => s ≠ ""
  | none => false

/-- `CheckoutPage.fill_billing_address`, following the source line by
line: required fields via `.get` with defaults (country defaulting to
`'United States'`), `company` and `address2` only when truthy, filled
via bracket access. -/
def fill_billing_address (d : List (String × String)) :
    PyResult (List FillAction) :=
  let acts1 : List FillAction :=
    [.sendKeys "BillingNewAddress_FirstName" (dictGetD d "first_name" ""),
     .sendKeys "BillingNewAddress_LastName" (dictGetD d "last_name" ""),
     .sendKeys "BillingNewAddress_Email" (dictGetD d "email" "")]
  match (if truthy (dictFind d "company")
      then (match dictItem d "company" with
        | .ok v => .ok [FillAction.sendKeys "BillingNewAddress_Company" v]
        | .exn e => .exn e)
      else (.ok [] : PyResult (List FillAction))) with
  | .exn e => .exn e
  | .ok companyActs =>
    let acts2 : List FillAction :=
      [.selectDropdown "BillingNewAddress_CountryId"
         (dictGetD d "country" "United States"),
       .sendKeys "BillingNewAddress_City" (dictGetD d "city" ""),
       .sendKeys "BillingNewAddress_Address1" (dictGetD d "address1" "")]
    match (if truthy (dictFind d "address2")
        then (match dictItem d "address2" with
          | .ok v => .ok [FillAction.sendKeys "BillingNewAddress_Address2" v]
          | .exn e => .exn e)
        else (.ok [] : PyResult (List FillAction))) with
    | .exn e => .exn e
    | .ok address2Acts =>
      .ok (acts1 ++ companyActs ++ acts2 ++ address2Acts ++
        [.sendKeys "BillingNewAddress_ZipPostalCode" (dictGetD d "zip_code" ""),
         .sendKeys "BillingNewAddress_PhoneNumber" (dictGetD d "phone" "")])

/-- Modelled from the claim's wording, for comparison with the source
translation: required values default to the empty string (country to
`'United States'`), and the optional fields appear exactly when present
and non-empty. -/
def fillBillingSpec (d : List (String × String)) : List FillAction :=
  [.sendKeys "BillingNewAddress_FirstName" (dictGetD d "first_name" ""),
   .sendKeys "BillingNewAddress_LastName" (dictGetD d "last_name" ""),
   .sendKeys "BillingNewAddress_Email" (dictGetD d "email" "")] ++
  (match dictFind d "company" with
   | some s => if s = "" then [] else [.sendKeys "BillingNewAddress_Company" s]
   | none => []) ++
  [.selectDropdown "BillingNewAddress_CountryId"
     (dictGetD d "country" "United States"),
   .sendKeys "BillingNewAddress_City" (dictGetD d "city" ""),
   .sendKeys "BillingNewAddress_Address1" (dictGetD d "address1" "")] ++
  (match dictFind d "address2" with
   | some s => if s = "" then [] else [.sendKeys "BillingNewAddress_Address2" s]
   | none => []) ++
  [.sendKeys "BillingNewAddress_ZipPostalCode" (dictGetD d "zip_code" ""),
   .sendKeys "BillingNewAddress_PhoneNumber" (dictGetD d "phone" "")]

/-- C10: `fill_billing_address` is total over the address dictionary —
for every dictionary it returns normally (no `KeyError`/DataUnavailable
is ever raised: required keys go through `.get` with defaults, and the
optional bracket accesses are guarded by the truthiness checks that
guarantee the key's presence), and the actions it emits are exactly the
ones the claim describes. -/
theorem C10_fill_billing_total (d : List (String × String)) :
    fill_billing_address d = .ok (fillBillingSpec d) := by
  rw [fill_billing_address, fillBillingSpec]
  cases hc : dictFind d "company" with
  | none =>
    cases ha : dictFind d "address2" with
    | none =>
      simp [truthy, hc, ha, dictItem]
    | some s2 =>
      by_cases hs2 : s2 = "" <;>
        simp [truthy, hc, ha, hs2, dictItem]
  | some s1 =>
    cases ha : dictFind d "address2" with
    | none =>
      by_cases hs1 : s1 = "" <;>
        simp [truthy, hc, ha, hs1, dictItem]
    | some s2 =>
      by_cases hs1 : s1 = "" <;> by_cases hs2 : s2 = "" <;>
        simp [truthy, hc, ha, hs1, hs2, dictItem]

theorem C1_step_indices_witness :
    (realSteps envAllOk).map Row.stepNumber =
      (List.range' 0 (realSteps envAllOk).length).map
        (fun i => some (Int.ofNat i)) :=
  (C1_step_indices envAllOk).1
